import Mathlib

/-!
Shallow embedding of the collection-rank synchronization routine of the
`algolia-sync-manual-sort` repository.

The repository ships two Remix route modules that both export an `action`
handling the "Render" POST:

* the session-authenticated variant (`authenticate.admin`, post-loop
  `rendered_at` collection stamp) — embedded below in namespace `Authed`;
* the unauthenticated prototype variant (ambient `SHOPIFY_SHOP` /
  `SHOPIFY_ACCESS_TOKEN`, no stamp) — embedded in namespace `Proto`.

External effects (the Shopify Admin GraphQL calls) are modelled by an
environment supplying the outcome of each call; the mutations the routine
issues are collected in a trace.  JavaScript exceptions are modelled as
`Except String` values carrying the thrown error's `message` (a thrown
error whose `message` is falsy is modelled by the empty string, matching
`error.message || "An unexpected error occurred"`).  Errors thrown with an
HTTP status of 401 belong to the external session layer
(`authenticate.admin`), which is modelled only by the `hasAdmin` flag.
-/

/-- A product node as returned by the `getCollection` query: `{ id title }`. -/
structure Product where
  id : String
  title : String
deriving Repr, DecidableEq

/-- A collection as it exists in the store: identifier, handle, sort order
string (`"MANUAL"` is the actionable one) and its full product list in
manual order.  The fetch below delivers only the first page of `products`. -/
structure Collection where
  id : String
  handle : String
  sortOrder : String
  products : List Product
deriving Repr, DecidableEq

/-- One entry of `results.errors`: `{ productId, title, error }`. -/
structure SyncErrorEntry where
  productId : String
  title : String
  error : String
deriving Repr, DecidableEq

/-- The `results` accumulator: `{ success: 0, failed: 0, errors: [] }`. -/
structure SyncResults where
  success : Nat
  failed : Nat
  errors : List SyncErrorEntry
deriving Repr, DecidableEq

/-- A GraphQL mutation issued by the routine.  `nspace` stands for the
`namespace` field of the metafield input (a reserved word in Lean). -/
inductive Mutation where
  | productUpdate (productId nspace key type value : String)
  | collectionUpdate (collectionId nspace key type value : String)
deriving Repr, DecidableEq

/-- Outcome environment for the per-product `productUpdate` calls: for a
product id, either the call returns (`.ok`) or throws (`.error message`).
A response containing `userErrors` still returns normally — the source only
logs `userErrors` — so it is `.ok` here. -/
def WriteEnv : Type := String → Except String Unit

/-- The page-size argument of the fetch query:
`products(first: 100, sortKey: MANUAL)`. -/
def collectionProductsPageSize : Nat := 100

/-- The product list the action iterates:
`collection.products.edges.map((e) => e.node)`.  GraphQL connection
semantics for `products(first: 100, sortKey: MANUAL)` deliver the first
100 products of the collection's manual order. -/
def fetchedProducts (c : Collection) : List Product :=
  c.products.take collectionProductsPageSize

/-- `setProductMetafield`: builds the `productUpdate` mutation with a single
metafield `{ namespace: "custom", key, type: "number_integer", value:
value.toString() }` and performs the call; the call's outcome comes from the
environment.  Returns the issued mutation together with the outcome. -/
def setProductMetafield (write : WriteEnv) (productId key : String) (value : Nat) :
    Mutation × Except String Unit :=
  (.productUpdate productId "custom" key "number_integer" (toString value),
   write productId)

/-- The per-product loop, shared verbatim by both route variants:
`for (let i = 0; i < products.length; i++) { try { await
setProductMetafield({... key: collectionHandle_rank, value: i + 1}) ;
results.success++ } catch { results.failed++; results.errors.push(...) } }`.
Returns the final `results` and the trace of issued mutations. -/
def processLoop (write : WriteEnv) (handle : String) :
    List Product → Nat → SyncResults → SyncResults × List Mutation
  | [], _, results => (results, [])
  | product :: rest, i, results =>
    let call := setProductMetafield write product.id (handle ++ "_rank") (i + 1)
    match call.2 with
    | .ok _ =>
      let next := processLoop write handle rest (i + 1)
        { results with success := results.success + 1 }
      (next.1, call.1 :: next.2)
    | .error e =>
      let next := processLoop write handle rest (i + 1)
        { results with failed := results.failed + 1,
                       errors := results.errors ++ [⟨product.id, product.title, e⟩] }
      (next.1, call.1 :: next.2)

/-- The JSON value an action returns: either `json({ error }, { status })`
or `json({ success: true, results, message })`. -/
inductive ActionResponse where
  | errorResponse (error : String) (status : Nat)
  | okResponse (success : Bool) (results : SyncResults) (message : String)
deriving Repr, DecidableEq

/-- Whether the response is the `{ success: true, ... }` shape. -/
def ActionResponse.isSuccessShape : ActionResponse → Bool
  | .okResponse .. => true
  | _ => false

/-- The `results` object of an `okResponse`, when present. -/
def ActionResponse.resultsOf : ActionResponse → Option SyncResults
  | .okResponse _ r _ => some r
  | _ => none

/-- `error.message || "An unexpected error occurred"` for a caught error. -/
def messageOrUnexpected (e : String) : String :=
  if e = "" then "An unexpected error occurred" else e

/-- The success message:
``Successfully updated ${results.success} products${results.failed > 0 ? `, ${results.failed} failed` : ""}``. -/
def summaryMessage (results : SyncResults) : String :=
  "Successfully updated " ++ toString results.success ++ " products" ++
    (if results.failed > 0 then ", " ++ toString results.failed ++ " failed" else "")

namespace Proto

/-- Environment of a run of the prototype action: the ambient credentials
(`process.env.SHOPIFY_SHOP` / `SHOPIFY_ACCESS_TOKEN`, missing modelled as
`""` since JavaScript tests them for falsiness), the posted form fields,
and the outcomes of the external calls.  `fetchOutcome` is the result of
the `getCollection` query: `.error` if the call throws, `.ok none` if
`data?.collection` is null, `.ok (some c)` otherwise. -/
structure Env where
  shop : String
  accessToken : String
  collectionId : String
  collectionHandle : String
  fetchOutcome : Except String (Option Collection)
  writeOutcome : WriteEnv

/-- The prototype route's `action`: credential guard, collection fetch,
NotFound and sort-order guards, per-product loop, aggregate response.
Returns the response together with the trace of issued mutations. -/
def action (env : Env) : ActionResponse × List Mutation :=
  if env.shop = "" ∨ env.accessToken = "" then
    (.errorResponse "Missing shop or access token" 401, [])
  else
    match env.fetchOutcome with
    | .error e => (.errorResponse (messageOrUnexpected e) 500, [])
    | .ok none => (.errorResponse "Collection not found" 404, [])
    | .ok (some collection) =>
      if collection.sortOrder ≠ "MANUAL" then
        (.errorResponse "Collection is not manual sort" 400, [])
      else
        let products := fetchedProducts collection
        let run := processLoop env.writeOutcome env.collectionHandle products 0 ⟨0, 0, []⟩
        (.okResponse true run.1 (summaryMessage run.1), run.2)

end Proto

namespace Authed

/-- Environment of a run of the session-authenticated action: whether
`authenticate.admin` yielded an admin client (`if (!admin)`), the posted
form fields, the fetch outcome, the per-product write outcomes, the outcome
of the post-loop `collectionUpdate` stamping call, and
`new Date().toISOString()` at stamping time. -/
structure Env where
  hasAdmin : Bool
  collectionId : String
  collectionHandle : String
  fetchOutcome : Except String (Option Collection)
  writeOutcome : WriteEnv
  stampOutcome : Except String Unit
  now : String

/-- The `rendered_at` stamp mutation issued after the loop:
`collectionUpdate` with metafield `{ namespace: "custom", key:
"rendered_at", type: "single_line_text_field", value: now }`. -/
def stampMutation (env : Env) : Mutation :=
  .collectionUpdate env.collectionId "custom" "rendered_at"
    "single_line_text_field" env.now

/-- The session-authenticated route's `action`: admin guard, collection
fetch, NotFound and sort-order guards, per-product loop, `rendered_at`
stamp, aggregate response.  An exception thrown by the stamping call is
caught only by the outer handler, which returns the 500 error response. -/
def action (env : Env) : ActionResponse × List Mutation :=
  if !env.hasAdmin then
    (.errorResponse "Authentication required" 401, [])
  else
    match env.fetchOutcome with
    | .error e => (.errorResponse (messageOrUnexpected e) 500, [])
    | .ok none => (.errorResponse "Collection not found" 404, [])
    | .ok (some collection) =>
      if collection.sortOrder ≠ "MANUAL" then
        (.errorResponse "Collection is not manual sort" 400, [])
      else
        let products := fetchedProducts collection
        let run := processLoop env.writeOutcome env.collectionHandle products 0 ⟨0, 0, []⟩
        match env.stampOutcome with
        | .error e =>
          (.errorResponse (messageOrUnexpected e) 500, run.2 ++ [stampMutation env])
        | .ok _ =>
          (.okResponse true run.1 (summaryMessage run.1), run.2 ++ [stampMutation env])

end Authed

/-- Specification-side description of the rank write issued for the product
at 0-based index `i`: numeric metafield `<handle>_rank` set to `i + 1`. -/
def rankWrite (handle : String) (i : Nat) (p : Product) : Mutation :=
  .productUpdate p.id "custom" (handle ++ "_rank") "number_integer" (toString (i + 1))

/-- The rank writes for a product list, one per product in list order. -/
def rankWrites (handle : String) (products : List Product) : List Mutation :=
  (products.enumFrom 0).map fun x => rankWrite handle x.1 x.2

/-- Whether a mutation is a per-product rank write (`productUpdate`). -/
def Mutation.isProductUpdate : Mutation → Bool
  | .productUpdate .. => true
  | .collectionUpdate .. => false

/-- The per-product writes of a mutation trace. -/
def productWrites (trace : List Mutation) : List Mutation :=
  trace.filter Mutation.isProductUpdate

/-- Whether the environment lets the write for product `p` return normally. -/
def writeOk (w : WriteEnv) (p : Product) : Bool :=
  match w p.id with
  | .ok _ => true
  | .error _ => false

/-- The diagnostic record the loop pushes when the write for `p` throws. -/
def writeErr (w : WriteEnv) (p : Product) : Option SyncErrorEntry :=
  match w p.id with
  | .ok _ => none
  | .error e => some ⟨p.id, p.title, e⟩

/-- The aggregate the loop produces over `ps` under write environment `w`:
successes are the products whose write returns, failures those whose write
throws, and the error list collects their diagnostic records in order. -/
def loopResults (w : WriteEnv) (ps : List Product) : SyncResults :=
  ⟨(ps.filter (writeOk w)).length,
   (ps.filter fun p => !writeOk w p).length,
   ps.filterMap (writeErr w)⟩

/-- Sample product used by concrete instantiations. -/
def productA : Product := ⟨"gid-product-a", "Product A"⟩

/-- Sample product used by concrete instantiations. -/
def productB : Product := ⟨"gid-product-b", "Product B"⟩

/-- Sample product used by concrete instantiations. -/
def productC : Product := ⟨"gid-product-c", "Product C"⟩

/-- Sample manually-sorted collection with three products. -/
def bestSellers : Collection :=
  ⟨"gid-collection-1", "best-sellers", "MANUAL", [productA, productB, productC]⟩

/-- Sample automatically-sorted collection. -/
def autoCollection : Collection :=
  ⟨"gid-collection-3", "new-arrivals", "BEST_SELLING", [productA]⟩

/-- Sample collection with 101 products, exceeding the fetch page size. -/
def bigCollection : Collection :=
  ⟨"gid-collection-2", "big", "MANUAL",
   (List.range 101).map fun n => ⟨"p" ++ toString n, "P" ++ toString n⟩⟩

/-- Write environment in which every product write returns normally. -/
def allOk : WriteEnv := fun _ => .ok ()

/-- Write environment in which every product write throws. -/
def allFail : WriteEnv := fun _ => .error "boom"

/-- Write environment in which only the write for `productB` throws. -/
def failOnB : WriteEnv :=
  fun id => if id = productB.id then .error "network error" else .ok ()

/-- A prototype-variant environment with credentials present. -/
def protoEnv (fetch : Except String (Option Collection)) (w : WriteEnv) : Proto.Env :=
  ⟨"shop.myshopify.com", "token", "gid-collection-1", "best-sellers", fetch, w⟩

/-- A session-authenticated environment with an admin client present. -/
def authedEnv (fetch : Except String (Option Collection)) (w : WriteEnv)
    (stamp : Except String Unit) : Authed.Env :=
  ⟨true, "gid-collection-1", "best-sellers", fetch, w, stamp,
   "2024-05-01T12:00:00.000Z"⟩

/-- A session-authenticated run in which every product write succeeds but
the post-loop `rendered_at` stamping call throws. -/
def stampFailEnv : Authed.Env :=
  authedEnv (.ok (some bestSellers)) allOk (.error "network timeout")

/-- A second stamping-failure run, with a failing product write as well. -/
def stampFailEnv2 : Authed.Env :=
  ⟨true, "gid-collection-1", "best-sellers", .ok (some bestSellers), failOnB,
   .error "offline", "2024-05-02T08:30:00.000Z"⟩

/-- Full characterization of the per-product loop: the success counter grows
by the number of products whose write returns, the failure counter by the
number whose write throws, the error list gains the diagnostic records of
the throwing products in list order, and the trace is one rank write per
product in list order with value `index + 1`. -/
theorem processLoop_spec (w : WriteEnv) (h : String) (ps : List Product) (i : Nat)
    (acc : SyncResults) :
    processLoop w h ps i acc =
      (⟨acc.success + (ps.filter (writeOk w)).length,
        acc.failed + (ps.filter fun p => !writeOk w p).length,
        acc.errors ++ ps.filterMap (writeErr w)⟩,
       (ps.enumFrom i).map fun x => rankWrite h x.1 x.2) := by
  induction ps generalizing i acc with
  | nil => simp [processLoop, List.enumFrom]
  | cons p rest ih =>
    cases hw : w p.id with
    | ok u =>
      have hok : writeOk w p = true := by simp [writeOk, hw]
      have herr : writeErr w p = none := by simp [writeErr, hw]
      simp [processLoop, setProductMetafield, hw, ih, hok, herr, List.filter_cons,
        List.filterMap_cons, List.enumFrom, rankWrite, SyncResults.mk.injEq,
        Prod.mk.injEq]
      omega
    | error e =>
      have hok : writeOk w p = false := by simp [writeOk, hw]
      have herr : writeErr w p = some ⟨p.id, p.title, e⟩ := by simp [writeErr, hw]
      simp [processLoop, setProductMetafield, hw, ih, hok, herr, List.filter_cons,
        List.filterMap_cons, List.enumFrom, rankWrite, SyncResults.mk.injEq,
        Prod.mk.injEq]
      omega

/-- The diagnostic records are exactly those of the throwing products. -/
theorem filterMap_writeErr_eq_filter (w : WriteEnv) (ps : List Product) :
    ps.filterMap (writeErr w) =
      (ps.filter fun p => !writeOk w p).filterMap (writeErr w) := by
  induction ps with
  | nil => rfl
  | cons p rest ih =>
    cases hw : w p.id with
    | ok u =>
      simp [List.filter_cons, List.filterMap_cons, writeOk, writeErr, hw, ih]
    | error e =>
      simp [List.filter_cons, List.filterMap_cons, writeOk, writeErr, hw, ih]

/-- One diagnostic record per throwing product. -/
theorem length_filterMap_writeErr (w : WriteEnv) (ps : List Product) :
    (ps.filterMap (writeErr w)).length =
      (ps.filter fun p => !writeOk w p).length := by
  induction ps with
  | nil => rfl
  | cons p rest ih =>
    cases hw : w p.id with
    | ok u =>
      simp [List.filter_cons, List.filterMap_cons, writeOk, writeErr, hw, ih]
    | error e =>
      simp [List.filter_cons, List.filterMap_cons, writeOk, writeErr, hw, ih]

/-- The loop computes `loopResults` and issues the rank writes in order. -/
theorem processLoop_eq_loopResults (w : WriteEnv) (h : String) (ps : List Product)
    (acc : SyncResults) (hacc : acc = ⟨0, 0, []⟩) :
    processLoop w h ps 0 acc = (loopResults w ps, rankWrites h ps) := by
  subst hacc
  rw [processLoop_spec]
  simp [loopResults, rankWrites]

/-- When every write returns, the loop reports all-success and no errors. -/
theorem loopResults_all_ok (w : WriteEnv) (ps : List Product)
    (hw : ∀ p ∈ ps, w p.id = .ok ()) :
    loopResults w ps = ⟨ps.length, 0, []⟩ := by
  have hok : ∀ p ∈ ps, writeOk w p = true := by
    intro p hp; simp [writeOk, hw p hp]
  simp only [loopResults, SyncResults.mk.injEq]
  refine ⟨?_, ?_, ?_⟩
  · rw [List.filter_eq_self.mpr hok]
  · rw [List.filter_eq_nil_iff.mpr fun p hp => by simp [hok p hp]]
    rfl
  · rw [List.filterMap_eq_nil_iff.mpr fun p hp => by simp [writeErr, hw p hp]]

/-- When exactly one product's write throws, the loop reports one failure
with its diagnostic record and `length - 1` successes. -/
theorem loopResults_single_fail (w : WriteEnv) (ps : List Product) (pf : Product)
    (e : String) (h1 : ps.filter (fun p => !writeOk w p) = [pf])
    (h2 : w pf.id = .error e) :
    loopResults w ps = ⟨ps.length - 1, 1, [⟨pf.id, pf.title, e⟩]⟩ := by
  have hlen := List.length_eq_length_filter_add (l := ps) (writeOk w)
  rw [h1] at hlen
  simp only [loopResults, SyncResults.mk.injEq]
  refine ⟨?_, ?_, ?_⟩
  · simp only [List.length_cons, List.length_nil] at hlen
    omega
  · rw [h1]; rfl
  · rw [filterMap_writeErr_eq_filter, h1]
    simp [List.filterMap_cons, writeErr, h2]

/-- A collection of at most one page is fetched whole. -/
theorem fetchedProducts_of_le (c : Collection) (h : c.products.length ≤ 100) :
    fetchedProducts c = c.products := by
  exact List.take_of_length_le h

/-- One rank write per product. -/
theorem rankWrites_length (h : String) (ps : List Product) :
    (rankWrites h ps).length = ps.length := by
  simp [rankWrites]

/-- Rank writes are product updates, so `productWrites` keeps all of them. -/
theorem productWrites_rankWrites (h : String) (ps : List Product) :
    productWrites (rankWrites h ps) = rankWrites h ps := by
  rw [productWrites, List.filter_eq_self]
  intro m hm
  simp only [rankWrites, List.mem_map] at hm
  obtain ⟨x, _, hx⟩ := hm
  rw [← hx]
  rfl

/-- When the guards pass, the prototype action returns the loop aggregate
and its trace is exactly the rank writes for the fetched page. -/
theorem proto_action_run (env : Proto.Env) (c : Collection)
    (hshop : env.shop ≠ "") (htok : env.accessToken ≠ "")
    (hf : env.fetchOutcome = .ok (some c)) (hm : c.sortOrder = "MANUAL") :
    Proto.action env =
      (.okResponse true (loopResults env.writeOutcome (fetchedProducts c))
         (summaryMessage (loopResults env.writeOutcome (fetchedProducts c))),
       rankWrites env.collectionHandle (fetchedProducts c)) := by
  simp only [Proto.action, hf, hm]
  rw [if_neg (by simp [hshop, htok]), if_neg (by simp)]
  rw [processLoop_eq_loopResults env.writeOutcome env.collectionHandle
    (fetchedProducts c) ⟨0, 0, []⟩ rfl]

/-- When the guards pass and the stamping call returns, the authenticated
action returns the loop aggregate; its trace is the rank writes for the
fetched page followed by the `rendered_at` stamp. -/
theorem authed_action_run_ok (env : Authed.Env) (c : Collection)
    (ha : env.hasAdmin = true) (hf : env.fetchOutcome = .ok (some c))
    (hm : c.sortOrder = "MANUAL") (hst : env.stampOutcome = .ok ()) :
    Authed.action env =
      (.okResponse true (loopResults env.writeOutcome (fetchedProducts c))
         (summaryMessage (loopResults env.writeOutcome (fetchedProducts c))),
       rankWrites env.collectionHandle (fetchedProducts c)
         ++ [Authed.stampMutation env]) := by
  simp only [Authed.action, ha, hf, hm, hst]
  rw [if_neg (by simp), if_neg (by simp)]
  rw [processLoop_eq_loopResults env.writeOutcome env.collectionHandle
    (fetchedProducts c) ⟨0, 0, []⟩ rfl]

/-- When the guards pass and the stamping call throws, the authenticated
action returns the 500 error response; the rank writes and the stamp call
were still issued. -/
theorem authed_action_run_stamp_error (env : Authed.Env) (c : Collection)
    (ha : env.hasAdmin = true) (hf : env.fetchOutcome = .ok (some c))
    (hm : c.sortOrder = "MANUAL") (e : String)
    (hst : env.stampOutcome = .error e) :
    Authed.action env =
      (.errorResponse (messageOrUnexpected e) 500,
       rankWrites env.collectionHandle (fetchedProducts c)
         ++ [Authed.stampMutation env]) := by
  simp only [Authed.action, ha, hf, hm, hst]
  rw [if_neg (by simp), if_neg (by simp)]
  rw [processLoop_eq_loopResults env.writeOutcome env.collectionHandle
    (fetchedProducts c) ⟨0, 0, []⟩ rfl]

/-- Whatever the stamping outcome, the authenticated trace is the rank
writes followed by the stamp. -/
theorem authed_action_trace (env : Authed.Env) (c : Collection)
    (ha : env.hasAdmin = true) (hf : env.fetchOutcome = .ok (some c))
    (hm : c.sortOrder = "MANUAL") :
    (Authed.action env).2 =
      rankWrites env.collectionHandle (fetchedProducts c)
        ++ [Authed.stampMutation env] := by
  cases hst : env.stampOutcome with
  | ok u =>
    rw [authed_action_run_ok env c ha hf hm (by rw [hst])]
  | error e =>
    rw [authed_action_run_stamp_error env c ha hf hm e hst]

/-- C3: for every product whose write call throws — whatever error the
external write raises — the loop increments the failure counter, appends
the diagnostic record `{productId, title, error}`, leaves the success
counter to the remaining products, and continues: the rank writes of all
subsequent products are still issued. -/
theorem c3_failure_recorded_and_continues (w : WriteEnv) (h : String)
    (p : Product) (rest : List Product) (i : Nat) (acc : SyncResults)
    (e : String) (hw : w p.id = .error e) :
    (processLoop w h (p :: rest) i acc).1.failed =
        acc.failed + 1 + (rest.filter fun q => !writeOk w q).length ∧
    (processLoop w h (p :: rest) i acc).1.errors =
        acc.errors ++ ⟨p.id, p.title, e⟩ :: rest.filterMap (writeErr w) ∧
    (processLoop w h (p :: rest) i acc).1.success =
        acc.success + (rest.filter (writeOk w)).length ∧
    (processLoop w h (p :: rest) i acc).2 =
        rankWrite h i p ::
          ((rest.enumFrom (i + 1)).map fun x => rankWrite h x.1 x.2) := by
  have hok : writeOk w p = false := by simp [writeOk, hw]
  have herr : writeErr w p = some ⟨p.id, p.title, e⟩ := by simp [writeErr, hw]
  rw [processLoop_spec]
  refine ⟨?_, ?_, ?_, ?_⟩
  · simp only [List.filter_cons, hok, Bool.not_false, if_pos, List.length_cons]
    omega
  · simp [List.filterMap_cons, herr]
  · simp [List.filter_cons, hok]
  · simp [List.enumFrom]

/-- C3 witness: the write for `productB` throws a network error at index 1
with one prior success accumulated; `productC` is still processed. -/
theorem c3_failure_recorded_and_continues_witness :
    failOnB productB.id = Except.error "network error" ∧
    ((processLoop failOnB "best-sellers" [productB, productC] 1 ⟨1, 0, []⟩).1.failed =
        0 + 1 + ([productC].filter fun q => !writeOk failOnB q).length ∧
      (processLoop failOnB "best-sellers" [productB, productC] 1 ⟨1, 0, []⟩).1.errors =
        [] ++ ⟨productB.id, productB.title, "network error"⟩ ::
          [productC].filterMap (writeErr failOnB) ∧
      (processLoop failOnB "best-sellers" [productB, productC] 1 ⟨1, 0, []⟩).1.success =
        1 + ([productC].filter (writeOk failOnB)).length ∧
      (processLoop failOnB "best-sellers" [productB, productC] 1 ⟨1, 0, []⟩).2 =
        rankWrite "best-sellers" 1 productB ::
          (([productC].enumFrom 2).map fun x => rankWrite "best-sellers" x.1 x.2)) :=
  ⟨rfl,
   c3_failure_recorded_and_continues failOnB "best-sellers" productB [productC] 1
     ⟨1, 0, []⟩ "network error" rfl⟩

/-- C4: for every collection whose sort-mode is not the manual kind, both
variants fail with the InvalidState condition — the 400 "Collection is not
manual sort" error response — and issue zero write mutations; no partial
result is produced. -/
theorem c4_non_manual_rejected (pe : Proto.Env) (ae : Authed.Env)
    (cp ca : Collection)
    (hshop : pe.shop ≠ "") (htok : pe.accessToken ≠ "")
    (hpf : pe.fetchOutcome = .ok (some cp)) (hpm : cp.sortOrder ≠ "MANUAL")
    (ha : ae.hasAdmin = true)
    (haf : ae.fetchOutcome = .ok (some ca)) (ham : ca.sortOrder ≠ "MANUAL") :
    Proto.action pe = (.errorResponse "Collection is not manual sort" 400, []) ∧
    Authed.action ae = (.errorResponse "Collection is not manual sort" 400, []) := by
  constructor
  · simp only [Proto.action, hpf]
    rw [if_neg (by simp [hshop, htok]), if_pos hpm]
  · simp only [Authed.action, ha, haf]
    rw [if_neg (by simp), if_pos ham]

/-- C4 witness at a concrete automatically-sorted collection. -/
theorem c4_non_manual_rejected_witness :
    Proto.action (protoEnv (.ok (some autoCollection)) allOk) =
        (.errorResponse "Collection is not manual sort" 400, []) ∧
    Authed.action (authedEnv (.ok (some autoCollection)) allOk (.ok ())) =
        (.errorResponse "Collection is not manual sort" 400, []) :=
  c4_non_manual_rejected _ _ autoCollection autoCollection (by decide) (by decide)
    rfl (by decide) rfl rfl (by decide)

/-- C5: for every collection identifier that does not resolve, both
variants fail with the NotFound condition — the 404 "Collection not found"
error response — and issue zero write mutations; no partial result is
produced. -/
theorem c5_missing_collection_rejected (pe : Proto.Env) (ae : Authed.Env)
    (hshop : pe.shop ≠ "") (htok : pe.accessToken ≠ "")
    (hpf : pe.fetchOutcome = .ok none)
    (ha : ae.hasAdmin = true) (haf : ae.fetchOutcome = .ok none) :
    Proto.action pe = (.errorResponse "Collection not found" 404, []) ∧
    Authed.action ae = (.errorResponse "Collection not found" 404, []) := by
  constructor
  · simp only [Proto.action, hpf]
    rw [if_neg (by simp [hshop, htok])]
  · simp only [Authed.action, ha, haf]
    rw [if_neg (by simp)]

/-- C5 witness at a concrete unresolved identifier. -/
theorem c5_missing_collection_rejected_witness :
    Proto.action (protoEnv (.ok none) allOk) =
        (.errorResponse "Collection not found" 404, []) ∧
    Authed.action (authedEnv (.ok none) allOk (.ok ())) =
        (.errorResponse "Collection not found" 404, []) :=
  c5_missing_collection_rejected _ _ (by decide) (by decide) rfl rfl rfl

/-- C1: for a manually-sorted collection with `N ≤ 100` products whose
identifier resolves, a successful run — every per-product write returns
and, in the session-authenticated variant, so does the post-loop stamp
call — issues exactly `N` rank-write mutations, one per product in list
order, each writing the numeric metafield `<handle>_rank` with value
`i + 1` for the product at 0-based index `i`, and returns a result with
`success = N`, `failed = 0` and an empty errors list. -/
theorem c1_successful_run (pe : Proto.Env) (ae : Authed.Env) (cp ca : Collection)
    (hshop : pe.shop ≠ "") (htok : pe.accessToken ≠ "")
    (hpf : pe.fetchOutcome = .ok (some cp)) (hpm : cp.sortOrder = "MANUAL")
    (hpn : cp.products.length ≤ 100)
    (hpw : ∀ p ∈ cp.products, pe.writeOutcome p.id = .ok ())
    (ha : ae.hasAdmin = true)
    (haf : ae.fetchOutcome = .ok (some ca)) (ham : ca.sortOrder = "MANUAL")
    (han : ca.products.length ≤ 100)
    (haw : ∀ p ∈ ca.products, ae.writeOutcome p.id = .ok ())
    (hast : ae.stampOutcome = .ok ()) :
    (Proto.action pe =
        (.okResponse true ⟨cp.products.length, 0, []⟩
           (summaryMessage ⟨cp.products.length, 0, []⟩),
         rankWrites pe.collectionHandle cp.products) ∧
      (rankWrites pe.collectionHandle cp.products).length = cp.products.length) ∧
    (Authed.action ae =
        (.okResponse true ⟨ca.products.length, 0, []⟩
           (summaryMessage ⟨ca.products.length, 0, []⟩),
         rankWrites ae.collectionHandle ca.products ++ [Authed.stampMutation ae]) ∧
      (rankWrites ae.collectionHandle ca.products).length = ca.products.length) := by
  have hp' := fetchedProducts_of_le cp hpn
  have ha' := fetchedProducts_of_le ca han
  refine ⟨⟨?_, rankWrites_length _ _⟩, ⟨?_, rankWrites_length _ _⟩⟩
  · rw [proto_action_run pe cp hshop htok hpf hpm, hp', loopResults_all_ok _ _ hpw]
  · rw [authed_action_run_ok ae ca ha haf ham hast, ha', loopResults_all_ok _ _ haw]

/-- C1 witness: the spec's concrete scenario — collection `best-sellers`
with three products in order receives ranks 1, 2, 3 and the result
`{success: 3, failed: 0}`. -/
theorem c1_successful_run_witness :
    (Proto.action (protoEnv (.ok (some bestSellers)) allOk) =
        (.okResponse true ⟨3, 0, []⟩ "Successfully updated 3 products",
         [rankWrite "best-sellers" 0 productA, rankWrite "best-sellers" 1 productB,
          rankWrite "best-sellers" 2 productC]) ∧
      (rankWrites "best-sellers" bestSellers.products).length = 3) ∧
    (Authed.action (authedEnv (.ok (some bestSellers)) allOk (.ok ())) =
        (.okResponse true ⟨3, 0, []⟩ "Successfully updated 3 products",
         [rankWrite "best-sellers" 0 productA, rankWrite "best-sellers" 1 productB,
          rankWrite "best-sellers" 2 productC,
          Authed.stampMutation (authedEnv (.ok (some bestSellers)) allOk (.ok ()))]) ∧
      (rankWrites "best-sellers" bestSellers.products).length = 3) :=
  c1_successful_run (protoEnv (.ok (some bestSellers)) allOk)
    (authedEnv (.ok (some bestSellers)) allOk (.ok ())) bestSellers bestSellers
    (by decide) (by decide) rfl rfl (by decide) (fun p _ => rfl)
    rfl rfl rfl (by decide) (fun p _ => rfl) rfl

/-- C2: when among `N ≤ 100` products exactly one product's write call
throws (for example a transport error), neither variant aborts: the final
result reports `success = N - 1`, `failed = 1`, the failing product's
identifier appears in the sole errors entry, and the rank-write mutations
of all `N` products — in particular all `N - 1` others — are still issued. -/
theorem c2_single_failure (pe : Proto.Env) (ae : Authed.Env) (cp ca : Collection)
    (pf pg : Product) (ep eg : String)
    (hshop : pe.shop ≠ "") (htok : pe.accessToken ≠ "")
    (hpf : pe.fetchOutcome = .ok (some cp)) (hpm : cp.sortOrder = "MANUAL")
    (hpn : cp.products.length ≤ 100)
    (hponly : cp.products.filter (fun p => !writeOk pe.writeOutcome p) = [pf])
    (hperr : pe.writeOutcome pf.id = .error ep)
    (ha : ae.hasAdmin = true)
    (haf : ae.fetchOutcome = .ok (some ca)) (ham : ca.sortOrder = "MANUAL")
    (han : ca.products.length ≤ 100)
    (haonly : ca.products.filter (fun p => !writeOk ae.writeOutcome p) = [pg])
    (haerr : ae.writeOutcome pg.id = .error eg)
    (hast : ae.stampOutcome = .ok ()) :
    ((Proto.action pe).1.resultsOf =
        some ⟨cp.products.length - 1, 1, [⟨pf.id, pf.title, ep⟩]⟩ ∧
      (Proto.action pe).2 = rankWrites pe.collectionHandle cp.products) ∧
    ((Authed.action ae).1.resultsOf =
        some ⟨ca.products.length - 1, 1, [⟨pg.id, pg.title, eg⟩]⟩ ∧
      productWrites (Authed.action ae).2 =
        rankWrites ae.collectionHandle ca.products) := by
  have hp' := fetchedProducts_of_le cp hpn
  have ha' := fetchedProducts_of_le ca han
  refine ⟨⟨?_, ?_⟩, ⟨?_, ?_⟩⟩
  · rw [proto_action_run pe cp hshop htok hpf hpm, hp',
      loopResults_single_fail pe.writeOutcome cp.products pf ep hponly hperr]
    rfl
  · rw [proto_action_run pe cp hshop htok hpf hpm, hp']
  · rw [authed_action_run_ok ae ca ha haf ham hast, ha',
      loopResults_single_fail ae.writeOutcome ca.products pg eg haonly haerr]
    rfl
  · rw [authed_action_run_ok ae ca ha haf ham hast, ha', productWrites,
      List.filter_append, ← productWrites, productWrites_rankWrites]
    simp [Authed.stampMutation, Mutation.isProductUpdate]

/-- C2 witness: among the three `best-sellers` products only the write for
`productB` throws; the run reports `{success: 2, failed: 1}`, records
`productB`'s identifier, and still issues all three rank writes. -/
theorem c2_single_failure_witness :
    ((Proto.action (protoEnv (.ok (some bestSellers)) failOnB)).1.resultsOf =
        some ⟨2, 1, [⟨productB.id, productB.title, "network error"⟩]⟩ ∧
      (Proto.action (protoEnv (.ok (some bestSellers)) failOnB)).2 =
        rankWrites "best-sellers" bestSellers.products) ∧
    ((Authed.action (authedEnv (.ok (some bestSellers)) failOnB (.ok ()))).1.resultsOf =
        some ⟨2, 1, [⟨productB.id, productB.title, "network error"⟩]⟩ ∧
      productWrites (Authed.action (authedEnv (.ok (some bestSellers)) failOnB (.ok ()))).2 =
        rankWrites "best-sellers" bestSellers.products) :=
  c2_single_failure (protoEnv (.ok (some bestSellers)) failOnB)
    (authedEnv (.ok (some bestSellers)) failOnB (.ok ())) bestSellers bestSellers
    productB productB "network error" "network error"
    (by decide) (by decide) rfl rfl (by decide) (by decide) rfl
    rfl rfl rfl (by decide) (by decide) rfl rfl

/-- C6: two runs over the same fetched snapshot and the same handle issue
identical rank assignments — for each product the same metafield key and
value — whatever the write (or stamp) outcomes of either run: both traces'
per-product writes equal the rank writes of the snapshot. -/
theorem c6_idempotent_assignments (pe1 pe2 : Proto.Env) (ae1 ae2 : Authed.Env)
    (c d : Collection)
    (hh : pe1.collectionHandle = pe2.collectionHandle)
    (hs1 : pe1.shop ≠ "") (ht1 : pe1.accessToken ≠ "")
    (hs2 : pe2.shop ≠ "") (ht2 : pe2.accessToken ≠ "")
    (hf1 : pe1.fetchOutcome = .ok (some c))
    (hf2 : pe2.fetchOutcome = .ok (some c))
    (hm : c.sortOrder = "MANUAL")
    (hah : ae1.collectionHandle = ae2.collectionHandle)
    (ha1 : ae1.hasAdmin = true) (ha2 : ae2.hasAdmin = true)
    (hg1 : ae1.fetchOutcome = .ok (some d))
    (hg2 : ae2.fetchOutcome = .ok (some d))
    (hdm : d.sortOrder = "MANUAL") :
    (productWrites (Proto.action pe1).2 = productWrites (Proto.action pe2).2 ∧
      productWrites (Proto.action pe1).2 =
        rankWrites pe1.collectionHandle (fetchedProducts c)) ∧
    (productWrites (Authed.action ae1).2 = productWrites (Authed.action ae2).2 ∧
      productWrites (Authed.action ae1).2 =
        rankWrites ae1.collectionHandle (fetchedProducts d)) := by
  have k1 : productWrites (Proto.action pe1).2 =
      rankWrites pe1.collectionHandle (fetchedProducts c) := by
    rw [proto_action_run pe1 c hs1 ht1 hf1 hm]
    exact productWrites_rankWrites _ _
  have k2 : productWrites (Proto.action pe2).2 =
      rankWrites pe2.collectionHandle (fetchedProducts c) := by
    rw [proto_action_run pe2 c hs2 ht2 hf2 hm]
    exact productWrites_rankWrites _ _
  have l1 : productWrites (Authed.action ae1).2 =
      rankWrites ae1.collectionHandle (fetchedProducts d) := by
    rw [authed_action_trace ae1 d ha1 hg1 hdm, productWrites, List.filter_append,
      ← productWrites, productWrites_rankWrites]
    simp [Authed.stampMutation, Mutation.isProductUpdate]
  have l2 : productWrites (Authed.action ae2).2 =
      rankWrites ae2.collectionHandle (fetchedProducts d) := by
    rw [authed_action_trace ae2 d ha2 hg2 hdm, productWrites, List.filter_append,
      ← productWrites, productWrites_rankWrites]
    simp [Authed.stampMutation, Mutation.isProductUpdate]
  exact ⟨⟨by rw [k1, k2, hh], k1⟩, ⟨by rw [l1, l2, hah], l1⟩⟩

/-- C6 witness: a first run where every write succeeds and a second where
one write fails (and, for the authenticated variant, the second run's stamp
throws at a different time) still issue identical rank assignments. -/
theorem c6_idempotent_assignments_witness :
    (productWrites (Proto.action (protoEnv (.ok (some bestSellers)) allOk)).2 =
        productWrites (Proto.action (protoEnv (.ok (some bestSellers)) failOnB)).2 ∧
      productWrites (Proto.action (protoEnv (.ok (some bestSellers)) allOk)).2 =
        rankWrites "best-sellers" (fetchedProducts bestSellers)) ∧
    (productWrites (Authed.action (authedEnv (.ok (some bestSellers)) allOk (.ok ()))).2 =
        productWrites (Authed.action stampFailEnv2).2 ∧
      productWrites (Authed.action (authedEnv (.ok (some bestSellers)) allOk (.ok ()))).2 =
        rankWrites "best-sellers" (fetchedProducts bestSellers)) :=
  c6_idempotent_assignments (protoEnv (.ok (some bestSellers)) allOk)
    (protoEnv (.ok (some bestSellers)) failOnB)
    (authedEnv (.ok (some bestSellers)) allOk (.ok ())) stampFailEnv2
    bestSellers bestSellers rfl (by decide) (by decide) (by decide) (by decide)
    rfl rfl rfl rfl rfl rfl rfl rfl rfl

/-- C7: the fetch requests at most 100 member products, so for a collection
with more than 100 members the routine issues rank writes for exactly the
first 100 products of the manual order and the collection is only
partially processed. -/
theorem c7_page_cap_truncates (pe : Proto.Env) (ae : Authed.Env)
    (cp ca : Collection)
    (hshop : pe.shop ≠ "") (htok : pe.accessToken ≠ "")
    (hpf : pe.fetchOutcome = .ok (some cp)) (hpm : cp.sortOrder = "MANUAL")
    (hpn : 100 < cp.products.length)
    (ha : ae.hasAdmin = true)
    (haf : ae.fetchOutcome = .ok (some ca)) (ham : ca.sortOrder = "MANUAL")
    (han : 100 < ca.products.length) :
    ((Proto.action pe).2 =
        rankWrites pe.collectionHandle (cp.products.take 100) ∧
      (Proto.action pe).2.length = 100 ∧
      (Proto.action pe).2.length < cp.products.length) ∧
    (productWrites (Authed.action ae).2 =
        rankWrites ae.collectionHandle (ca.products.take 100) ∧
      (productWrites (Authed.action ae).2).length = 100 ∧
      (productWrites (Authed.action ae).2).length < ca.products.length) := by
  have hp : fetchedProducts cp = cp.products.take 100 := rfl
  have hq : fetchedProducts ca = ca.products.take 100 := rfl
  have k1 : (Proto.action pe).2 =
      rankWrites pe.collectionHandle (cp.products.take 100) := by
    rw [proto_action_run pe cp hshop htok hpf hpm, hp]
  have l1 : productWrites (Authed.action ae).2 =
      rankWrites ae.collectionHandle (ca.products.take 100) := by
    rw [authed_action_trace ae ca ha haf ham, productWrites, List.filter_append,
      ← productWrites, productWrites_rankWrites, hq]
    simp [Authed.stampMutation, Mutation.isProductUpdate]
  have klen : (rankWrites pe.collectionHandle (cp.products.take 100)).length = 100 := by
    rw [rankWrites_length, List.length_take]
    omega
  have llen : (rankWrites ae.collectionHandle (ca.products.take 100)).length = 100 := by
    rw [rankWrites_length, List.length_take]
    omega
  refine ⟨⟨k1, ?_, ?_⟩, ⟨l1, ?_, ?_⟩⟩
  · rw [k1, klen]
  · rw [k1, klen]; omega
  · rw [l1, llen]
  · rw [l1, llen]; omega

/-- C7 witness at a 101-product collection: exactly 100 rank writes. -/
theorem c7_page_cap_truncates_witness :
    100 < bigCollection.products.length ∧
    ((Proto.action (protoEnv (.ok (some bigCollection)) allOk)).2 =
        rankWrites "best-sellers" (bigCollection.products.take 100) ∧
      (Proto.action (protoEnv (.ok (some bigCollection)) allOk)).2.length = 100 ∧
      (Proto.action (protoEnv (.ok (some bigCollection)) allOk)).2.length <
        bigCollection.products.length) ∧
    (productWrites (Authed.action (authedEnv (.ok (some bigCollection)) allOk (.ok ()))).2 =
        rankWrites "best-sellers" (bigCollection.products.take 100) ∧
      (productWrites (Authed.action (authedEnv (.ok (some bigCollection)) allOk (.ok ()))).2).length = 100 ∧
      (productWrites (Authed.action (authedEnv (.ok (some bigCollection)) allOk (.ok ()))).2).length <
        bigCollection.products.length) :=
  ⟨by decide,
   c7_page_cap_truncates (protoEnv (.ok (some bigCollection)) allOk)
     (authedEnv (.ok (some bigCollection)) allOk (.ok ())) bigCollection bigCollection
     (by decide) (by decide) rfl rfl (by decide) rfl rfl rfl (by decide)⟩

/-- C8: in the session-authenticated variant, after the per-product loop
the routine issues exactly one additional `collectionUpdate` mutation
stamping the collection with the timestamp metafield (namespace `custom`,
key `rendered_at`), and when that call returns it then returns the
aggregate result. -/
theorem c8_rendered_at_stamp (ae : Authed.Env) (c : Collection)
    (ha : ae.hasAdmin = true) (haf : ae.fetchOutcome = .ok (some c))
    (ham : c.sortOrder = "MANUAL") :
    (Authed.action ae).2 =
      rankWrites ae.collectionHandle (fetchedProducts c) ++
        [Mutation.collectionUpdate ae.collectionId "custom" "rendered_at"
          "single_line_text_field" ae.now] ∧
    (ae.stampOutcome = .ok () →
      ((Authed.action ae).1).isSuccessShape = true) := by
  refine ⟨?_, ?_⟩
  · rw [authed_action_trace ae c ha haf ham]
    rfl
  · intro hst
    rw [authed_action_run_ok ae c ha haf ham hst]
    rfl

/-- C8 witness: the `best-sellers` run ends with the `rendered_at` stamp
and returns the aggregate. -/
theorem c8_rendered_at_stamp_witness :
    (Authed.action (authedEnv (.ok (some bestSellers)) allOk (.ok ()))).2 =
      rankWrites "best-sellers" (fetchedProducts bestSellers) ++
        [Mutation.collectionUpdate "gid-collection-1" "custom" "rendered_at"
          "single_line_text_field" "2024-05-01T12:00:00.000Z"] ∧
    ((authedEnv (.ok (some bestSellers)) allOk (.ok ())).stampOutcome = .ok () →
      ((Authed.action (authedEnv (.ok (some bestSellers)) allOk (.ok ()))).1).isSuccessShape = true) :=
  c8_rendered_at_stamp (authedEnv (.ok (some bestSellers)) allOk (.ok ()))
    bestSellers rfl rfl rfl

/-- C9 counterexample: in the session-authenticated variant, with the admin
present, the collection found and manually sorted, and no exception during
fetch, a run whose post-loop stamping call throws ends in the 500 error
response — the whole invocation fails without the aggregate result, so the
claim that after the guards only fetch exceptions can fail the invocation
is false. -/
theorem c9_counterexample_stamp_exception :
    stampFailEnv.hasAdmin = true ∧
    stampFailEnv.fetchOutcome = Except.ok (some bestSellers) ∧
    bestSellers.sortOrder = "MANUAL" ∧
    (Authed.action stampFailEnv).1 = .errorResponse "network timeout" 500 ∧
    ((Authed.action stampFailEnv).1).isSuccessShape = false :=
  ⟨rfl, rfl, rfl, by decide, by decide⟩

/-- C9 (amended): once both upfront guards have passed, the prototype
variant always returns the aggregate result whatever the per-product write
outcomes; the session-authenticated variant does so provided the post-loop
timestamp write returns, and otherwise fails the whole invocation with the
Unexpected condition carrying that error's message; unexpected exceptions
during fetch propagate as Unexpected with the underlying message attached;
per-item failures are accumulated and never terminate the invocation. -/
theorem c9_post_guard_failure_modes (pe pe' : Proto.Env) (ae ae' : Authed.Env)
    (c d : Collection) (e1 e2 e3 : String)
    (hshop : pe.shop ≠ "") (htok : pe.accessToken ≠ "")
    (hpf : pe.fetchOutcome = .ok (some c)) (hpm : c.sortOrder = "MANUAL")
    (hs2 : pe'.shop ≠ "") (ht2 : pe'.accessToken ≠ "")
    (hf2 : pe'.fetchOutcome = .error e1)
    (ha : ae.hasAdmin = true) (haf : ae.fetchOutcome = .ok (some d))
    (ham : d.sortOrder = "MANUAL")
    (ha2 : ae'.hasAdmin = true) (hf3 : ae'.fetchOutcome = .error e2) :
    ((Proto.action pe).1).isSuccessShape = true ∧
    Proto.action pe' = (.errorResponse (messageOrUnexpected e1) 500, []) ∧
    (ae.stampOutcome = .ok () → ((Authed.action ae).1).isSuccessShape = true) ∧
    (ae.stampOutcome = .error e3 →
      (Authed.action ae).1 = .errorResponse (messageOrUnexpected e3) 500) ∧
    Authed.action ae' = (.errorResponse (messageOrUnexpected e2) 500, []) := by
  refine ⟨?_, ?_, ?_, ?_, ?_⟩
  · rw [proto_action_run pe c hshop htok hpf hpm]
    rfl
  · simp only [Proto.action, hf2]
    rw [if_neg (by simp [hs2, ht2])]
  · intro hst
    rw [authed_action_run_ok ae d ha haf ham hst]
    rfl
  · intro hst
    rw [authed_action_run_stamp_error ae d ha haf ham e3 hst]
  · simp only [Authed.action, ha2, hf3]
    rw [if_neg (by simp)]

/-- C9 witness: concrete runs for each failure mode — all product writes
failing still yields the aggregate response in the prototype; a fetch
exception yields the 500 Unexpected response; the stamping run of
`stampFailEnv` fails with its message. -/
theorem c9_post_guard_failure_modes_witness :
    ((Proto.action (protoEnv (.ok (some bestSellers)) allFail)).1).isSuccessShape = true ∧
    Proto.action (protoEnv (.error "fetch refused") allOk) =
      (.errorResponse (messageOrUnexpected "fetch refused") 500, []) ∧
    (stampFailEnv.stampOutcome = .ok () →
      ((Authed.action stampFailEnv).1).isSuccessShape = true) ∧
    (stampFailEnv.stampOutcome = .error "network timeout" →
      (Authed.action stampFailEnv).1 =
        .errorResponse (messageOrUnexpected "network timeout") 500) ∧
    Authed.action (authedEnv (.error "socket hangup") allOk (.ok ())) =
      (.errorResponse (messageOrUnexpected "socket hangup") 500, []) :=
  c9_post_guard_failure_modes (protoEnv (.ok (some bestSellers)) allFail)
    (protoEnv (.error "fetch refused") allOk) stampFailEnv
    (authedEnv (.error "socket hangup") allOk (.ok ())) bestSellers bestSellers
    "fetch refused" "socket hangup" "network timeout"
    (by decide) (by decide) rfl rfl (by decide) (by decide) rfl
    rfl rfl rfl rfl rfl

/-- C10 counterexample: both upfront guards pass (admin present, collection
found, manually sorted), yet the returned response is the 500 error
response with no top-level `success: true` flag, because the post-loop
stamping call throws — so "whenever both guards pass the response carries
success = true" is false on the session-authenticated variant. -/
theorem c10_counterexample_no_success_flag :
    stampFailEnv2.hasAdmin = true ∧
    stampFailEnv2.fetchOutcome = Except.ok (some bestSellers) ∧
    bestSellers.sortOrder = "MANUAL" ∧
    (Authed.action stampFailEnv2).1 = .errorResponse "offline" 500 ∧
    ((Authed.action stampFailEnv2).1).isSuccessShape = false :=
  ⟨rfl, rfl, rfl, by decide, by decide⟩

/-- C10 (amended): whenever both upfront guards pass — and, in the
session-authenticated variant, the post-loop stamping call returns — the
response carries the top-level `success: true` flag regardless of how many
per-product writes failed (even all of them), its counts satisfy
`success + failed = number of products processed` and
`errors.length = failed`, and its message is
"Successfully updated (success) products", with ", (failed) failed"
appended exactly when the failed count is positive. -/
theorem c10_success_flag_and_counts (pe : Proto.Env) (ae : Authed.Env)
    (c d : Collection)
    (hshop : pe.shop ≠ "") (htok : pe.accessToken ≠ "")
    (hpf : pe.fetchOutcome = .ok (some c)) (hpm : c.sortOrder = "MANUAL")
    (ha : ae.hasAdmin = true) (haf : ae.fetchOutcome = .ok (some d))
    (ham : d.sortOrder = "MANUAL") (hast : ae.stampOutcome = .ok ()) :
    (∃ res : SyncResults,
      (Proto.action pe).1 = .okResponse true res (summaryMessage res) ∧
      res.success + res.failed = (fetchedProducts c).length ∧
      res.errors.length = res.failed) ∧
    (∃ res : SyncResults,
      (Authed.action ae).1 = .okResponse true res (summaryMessage res) ∧
      res.success + res.failed = (fetchedProducts d).length ∧
      res.errors.length = res.failed) := by
  constructor
  · refine ⟨loopResults pe.writeOutcome (fetchedProducts c), ?_, ?_, ?_⟩
    · rw [proto_action_run pe c hshop htok hpf hpm]
    · simpa [loopResults] using
        (List.length_eq_length_filter_add (l := fetchedProducts c)
          (writeOk pe.writeOutcome)).symm
    · simpa [loopResults] using
        length_filterMap_writeErr pe.writeOutcome (fetchedProducts c)
  · refine ⟨loopResults ae.writeOutcome (fetchedProducts d), ?_, ?_, ?_⟩
    · rw [authed_action_run_ok ae d ha haf ham hast]
    · simpa [loopResults] using
        (List.length_eq_length_filter_add (l := fetchedProducts d)
          (writeOk ae.writeOutcome)).symm
    · simpa [loopResults] using
        length_filterMap_writeErr ae.writeOutcome (fetchedProducts d)

/-- C10 witness: a prototype run in which every product write fails still
returns `success: true` with `success = 0`, `failed = 3`; an authenticated
run with all writes succeeding returns the matching counts. -/
theorem c10_success_flag_and_counts_witness :
    (∃ res : SyncResults,
      (Proto.action (protoEnv (.ok (some bestSellers)) allFail)).1 =
        .okResponse true res (summaryMessage res) ∧
      res.success + res.failed = (fetchedProducts bestSellers).length ∧
      res.errors.length = res.failed) ∧
    (∃ res : SyncResults,
      (Authed.action (authedEnv (.ok (some bestSellers)) allOk (.ok ()))).1 =
        .okResponse true res (summaryMessage res) ∧
      res.success + res.failed = (fetchedProducts bestSellers).length ∧
      res.errors.length = res.failed) :=
  c10_success_flag_and_counts (protoEnv (.ok (some bestSellers)) allFail)
    (authedEnv (.ok (some bestSellers)) allOk (.ok ())) bestSellers bestSellers
    (by decide) (by decide) rfl rfl rfl rfl rfl rfl
